import Mathlib

/-!
Shallow embedding of the MouseListener utility library (src/index.js).

Each JavaScript class is modelled as a Lean structure holding its mutable
fields; each event handler / method becomes a pure function from the state
(plus the inputs the host would supply: the event payload and, where the
code calls `Date.now()`, an explicit clock value) to the new state together
with the list of observer invocations the call performs synchronously.

Coordinates and pixel quantities are modelled as rationals (JavaScript
numbers, exact on the inputs considered here); clock readings as integers
(milliseconds from `Date.now()`).  `Math.sqrt` and `Math.atan2` are host
library functions and are modelled over the reals.
-/

namespace MouseListener

/-- A mouse event payload: the fields of the DOM event the library reads
(`clientX`, `clientY`, `button`). -/
structure MouseEvent where
  clientX : ℚ
  clientY : ℚ
  button : ℤ
deriving DecidableEq, Repr

/-! ## ClickCounter (src/index.js lines 436-478)

State: `timeWindow` (ms), `clicks` (the timestamp log, insertion order),
and whether an observer callback was supplied at construction.  Events are
identified by a natural number tag so that observer invocations
`(count, event)` can be recorded. -/

structure ClickCounterState where
  timeWindow : ℤ
  clicks : List ℤ
  hasCallback : Bool
deriving DecidableEq, Repr

/-- `this.timeWindow = options.timeWindow || 2000`: a supplied value of `0`
is falsy in JavaScript, so it falls back to the 2000 ms default, as does an
absent option. -/
def effectiveTimeWindow (timeWindow : Option ℤ) : ℤ :=
  match timeWindow with
  | none => 2000
  | some w => if w = 0 then 2000 else w

/-- The `ClickCounter` constructor (lines 437-445): sets `timeWindow` from
the options (with the `|| 2000` fallback) and starts with an empty log. -/
def clickCounterInit (timeWindow : Option ℤ) (hasCallback : Bool) :
    ClickCounterState :=
  { timeWindow := effectiveTimeWindow timeWindow
    clicks := []
    hasCallback := hasCallback }

/-- `handleClick` (lines 447-459): take `now = Date.now()`, drop every
logged time with `now - time ≥ timeWindow` (the filter keeps
`now - time < timeWindow`), push `now`, then invoke the callback — when one
was supplied — with `(this.clicks.length, event)`.  Returns the new state
and the list of observer invocations performed. -/
def handleClick (s : ClickCounterState) (now : ℤ) (event : ℕ) :
    ClickCounterState × List (ℕ × ℕ) :=
  let kept := s.clicks.filter (fun time => now - time < s.timeWindow)
  let newClicks := kept ++ [now]
  ({ s with clicks := newClicks },
   if s.hasCallback then [(newClicks.length, event)] else [])

/-- `getCount` (lines 469-473): evict with the same filter, return the
length.  It calls no callback, so its invocation list is always empty. -/
def getCount (s : ClickCounterState) (now : ℤ) :
    ℕ × ClickCounterState × List (ℕ × ℕ) :=
  let kept := s.clicks.filter (fun time => now - time < s.timeWindow)
  (kept.length, { s with clicks := kept }, [])

/-- `reset` (lines 475-477). -/
def clickCounterReset (s : ClickCounterState) : ClickCounterState :=
  { s with clicks := [] }

/-! ## DragAndDrop (src/index.js lines 139-207)

State: the `isDragging` flag, `startPos`, `currentPos`, plus one boolean
per listener registration the instance owns (`mousedown` on its element,
`mousemove`/`mouseup` on the document), so that attach/detach behaviour is
part of the model.  Which of the three optional callbacks were supplied is
recorded as flags; the invocations the handlers perform are returned as a
list. -/

structure DragCallbacks where
  hasOnStart : Bool
  hasOnDrag : Bool
  hasOnEnd : Bool
deriving DecidableEq, Repr

/-- One synchronous callback invocation made by a DragAndDrop handler,
with the position/delta payloads the source passes. -/
inductive DragInvocation where
  | onStart (startPos : ℚ × ℚ)
  | onDrag (currentPos delta : ℚ × ℚ)
  | onEnd (currentPos delta : ℚ × ℚ)
deriving DecidableEq, Repr

structure DragState where
  callbacks : DragCallbacks
  isDragging : Bool
  startPos : ℚ × ℚ
  currentPos : ℚ × ℚ
  elementMousedownAttached : Bool
  docMousemoveAttached : Bool
  docMouseupAttached : Bool
deriving DecidableEq, Repr

/-- The `DragAndDrop` constructor (lines 140-152): zero positions, not
dragging, `start()` attaches only the element `mousedown` listener. -/
def dragInit (callbacks : DragCallbacks) : DragState :=
  { callbacks := callbacks
    isDragging := false
    startPos := (0, 0)
    currentPos := (0, 0)
    elementMousedownAttached := true
    docMousemoveAttached := false
    docMouseupAttached := false }

/-- `handleMouseDown` (lines 154-165): set `isDragging`, record the start
position (current = start), fire `onStart(event, startPos)` when supplied,
attach the document `mousemove`/`mouseup` listeners. -/
def handleMouseDown (s : DragState) (event : MouseEvent) :
    DragState × List DragInvocation :=
  let startPos : ℚ × ℚ := (event.clientX, event.clientY)
  ({ s with
      isDragging := true
      startPos := startPos
      currentPos := startPos
      docMousemoveAttached := true
      docMouseupAttached := true },
   if s.callbacks.hasOnStart then [.onStart startPos] else [])

/-- `handleMouseMove` (lines 167-179): a no-op unless `isDragging`;
otherwise update `currentPos`, compute the delta from `startPos`, fire
`onDrag(event, currentPos, delta)` when supplied. -/
def handleMouseMove (s : DragState) (event : MouseEvent) :
    DragState × List DragInvocation :=
  if s.isDragging then
    let currentPos : ℚ × ℚ := (event.clientX, event.clientY)
    let delta : ℚ × ℚ := (currentPos.1 - s.startPos.1, currentPos.2 - s.startPos.2)
    ({ s with currentPos := currentPos },
     if s.callbacks.hasOnDrag then [.onDrag currentPos delta] else [])
  else (s, [])

/-- `handleMouseUp` (lines 181-196): a no-op unless `isDragging`;
otherwise clear `isDragging`, fire `onEnd(event, currentPos, delta)` when
supplied, detach the document listeners. -/
def handleMouseUp (s : DragState) (_event : MouseEvent) :
    DragState × List DragInvocation :=
  if s.isDragging then
    let delta : ℚ × ℚ :=
      (s.currentPos.1 - s.startPos.1, s.currentPos.2 - s.startPos.2)
    ({ s with
        isDragging := false
        docMousemoveAttached := false
        docMouseupAttached := false },
     if s.callbacks.hasOnEnd then [.onEnd s.currentPos delta] else [])
  else (s, [])

/-- `stop` (lines 202-206): remove the element `mousedown` listener and the
document `mousemove`/`mouseup` listeners.  Nothing else is touched and no
callback is invoked. -/
def dragStop (s : DragState) : DragState × List DragInvocation :=
  ({ s with
      elementMousedownAttached := false
      docMousemoveAttached := false
      docMouseupAttached := false },
   [])

/-! ## MouseButtons (src/index.js lines 212-270) -/

structure ButtonState where
  left : Bool
  right : Bool
  middle : Bool
deriving DecidableEq, Repr

/-- The `MouseButtons` constructor (lines 213-223): all three flags start
false. -/
def mouseButtonsInit : ButtonState :=
  { left := false, right := false, middle := false }

/-- `handleMouseDown` (lines 225-237): `switch (event.button)` — 0 sets
`left`, 1 sets `middle`, 2 sets `right`; any other index falls through
the switch and changes nothing. -/
def buttonsDown (s : ButtonState) (event : MouseEvent) : ButtonState :=
  if event.button = 0 then { s with left := true }
  else if event.button = 1 then { s with middle := true }
  else if event.button = 2 then { s with right := true }
  else s

/-- `handleMouseUp` (lines 239-251): the same switch, clearing the flag. -/
def buttonsUp (s : ButtonState) (event : MouseEvent) : ButtonState :=
  if event.button = 0 then { s with left := false }
  else if event.button = 1 then { s with middle := false }
  else if event.button = 2 then { s with right := false }
  else s

/-- `isPressed` (lines 267-269): `this.buttons[button] || false` — looks
the name up among the three fields, any other name yields false. -/
def isPressed (s : ButtonState) (button : String) : Bool :=
  if button = "left" then s.left
  else if button = "right" then s.right
  else if button = "middle" then s.middle
  else false

/-! ## MovementTracker (src/index.js lines 312-365)

State: `lastPos`, `lastTime` (ms from `Date.now()`), and the most recently
computed `velocity`.  `handleMove` takes the clock reading the source gets
from `Date.now()` as an explicit argument.  The callback payload
`{velocity, speed, angle, position}` is modelled by `MoveEmission`
carrying the rational data (`deltaX`/`deltaY` are the intermediates the
source feeds to `Math.sqrt`/`Math.atan2`); the real-valued `speed` and
`angle` fields of the payload are the functions `emissionSpeed` and
`emissionAngleDeg` of that data. -/

structure MoveEmission where
  velocity : ℚ × ℚ
  deltaX : ℚ
  deltaY : ℚ
  position : ℚ × ℚ
deriving DecidableEq, Repr

structure TrackerState where
  lastPos : ℚ × ℚ
  lastTime : ℤ
  velocity : ℚ × ℚ
deriving DecidableEq, Repr

/-- The `MovementTracker` constructor (lines 313-322): zero position and
velocity, `lastTime` is the construction-time clock reading. -/
def trackerInit (now : ℤ) : TrackerState :=
  { lastPos := (0, 0), lastTime := now, velocity := (0, 0) }

/-- `handleMove` (lines 324-352): with `deltaTime = currentTime - lastTime`,
only when `deltaTime > 0` compute the deltas and the new velocity and emit
the payload; in every case finish by storing the event position as
`lastPos` and the clock reading as `lastTime`. -/
def trackerHandleMove (s : TrackerState) (event : MouseEvent)
    (currentTime : ℤ) : TrackerState × Option MoveEmission :=
  let deltaTime := currentTime - s.lastTime
  if 0 < deltaTime then
    let deltaX := event.clientX - s.lastPos.1
    let deltaY := event.clientY - s.lastPos.2
    let velocity : ℚ × ℚ := (deltaX / deltaTime, deltaY / deltaTime)
    ({ lastPos := (event.clientX, event.clientY)
       lastTime := currentTime
       velocity := velocity },
     some { velocity := velocity
            deltaX := deltaX
            deltaY := deltaY
            position := (event.clientX, event.clientY) })
  else
    ({ s with
        lastPos := (event.clientX, event.clientY)
        lastTime := currentTime },
     none)

/-- `Math.atan2 y x`, modelled over the reals by the usual case split on
the quadrant (the host's signed-zero and infinity cases do not arise for
the rational inputs considered here). -/
noncomputable def atan2 (y x : ℝ) : ℝ :=
  if 0 < x then Real.arctan (y / x)
  else if x < 0 ∧ 0 ≤ y then Real.arctan (y / x) + Real.pi
  else if x < 0 ∧ y < 0 then Real.arctan (y / x) - Real.pi
  else if x = 0 ∧ 0 < y then Real.pi / 2
  else if x = 0 ∧ y < 0 then -(Real.pi / 2)
  else 0

/-- `speed = Math.sqrt(velocity.x ** 2 + velocity.y ** 2)` (line 337). -/
noncomputable def emissionSpeed (e : MoveEmission) : ℝ :=
  Real.sqrt ((e.velocity.1 : ℝ) ^ 2 + (e.velocity.2 : ℝ) ^ 2)

/-- `angle = Math.atan2(deltaY, deltaX) * (180 / Math.PI)` (line 338). -/
noncomputable def emissionAngleDeg (e : MoveEmission) : ℝ :=
  atan2 (e.deltaY : ℝ) (e.deltaX : ℝ) * (180 / Real.pi)

/-! ## CustomCursor (src/index.js lines 372-429)

State: `currentPos`, `targetPos`, the `smooth` option, the configured
`offset`, and the pending-animation-frame flag.  `handleMove` and `update`
return the new state together with whether `updateCursor()` (the visual
update writing `style.transform`) fired during the call. -/

structure CursorState where
  smooth : Bool
  offset : ℚ × ℚ
  currentPos : ℚ × ℚ
  targetPos : ℚ × ℚ
  animationFramePending : Bool
deriving DecidableEq, Repr

/-- The `CustomCursor` constructor plus `start()` (lines 373-389, 416-421):
zero positions; when `smooth`, an animation frame is requested. -/
def cursorInit (smooth : Bool) (offset : ℚ × ℚ) : CursorState :=
  { smooth := smooth
    offset := offset
    currentPos := (0, 0)
    targetPos := (0, 0)
    animationFramePending := smooth }

/-- `handleMove` (lines 391-401): set the target to the mouse position plus
the offset; when smoothing is off, snap `currentPos` to the target and fire
the visual update synchronously.  The boolean returned records whether
`updateCursor()` fired. -/
def cursorHandleMove (s : CursorState) (event : MouseEvent) :
    CursorState × Bool :=
  let targetPos : ℚ × ℚ :=
    (event.clientX + s.offset.1, event.clientY + s.offset.2)
  if s.smooth then
    ({ s with targetPos := targetPos }, false)
  else
    ({ s with targetPos := targetPos, currentPos := targetPos }, true)

/-- `update` (lines 403-410), one animation tick: when `smooth`, move each
component of `currentPos` 30% of the way to `targetPos`
(`current += (target - current) * 0.3`), fire the visual update, and
reschedule the next frame; otherwise do nothing. -/
def cursorUpdate (s : CursorState) : CursorState × Bool :=
  if s.smooth then
    ({ s with
        currentPos :=
          (s.currentPos.1 + (s.targetPos.1 - s.currentPos.1) * (3 / 10),
           s.currentPos.2 + (s.targetPos.2 - s.currentPos.2) * (3 / 10))
        animationFramePending := true },
     true)
  else (s, false)

/-! ## Scenario states used by the ClickCounter theorems -/

/-- A ClickCounter with `window = 1000` after clicks recorded at times
0, 100 and 200. -/
def counterAfterThreeClicks : ClickCounterState :=
  (handleClick (handleClick (handleClick
    { timeWindow := 1000, clicks := [], hasCallback := false } 0 0).1 100 1).1 200 2).1

end MouseListener

namespace MouseListener

/-! ## Theorems -/

/-- **C1** (counterexample).  With `window = 1000` and clicks recorded at
times 0, 100 and 200, the log is `[0, 100, 200]` and a `count()` read at
time 1050 returns 2, not 0: the clicks at 100 and 200 are only 950 ms and
850 ms old, both strictly inside the window, so only the click at 0 is
evicted. -/
theorem counter_read_at_1050_counterexample :
    counterAfterThreeClicks.clicks = [0, 100, 200] ∧
    (getCount counterAfterThreeClicks 1050).1 = 2 ∧
    (getCount counterAfterThreeClicks 1050).1 ≠ 0 := by
  decide

/-- **C1** (amended).  With `window = 1000` and clicks at 0, 100, 200, a
read at 250 returns 3 and a read at 1050 returns 2; and after clicks at
`t`, `t+1`, `t+window−1`, a read at `t+window+1` returns 1 whenever
`window > 2` — the clicks at `t` and `t+1` are expired but the one at
`t+window−1` is only 2 ms old and survives. -/
theorem counter_reads_amended :
    (getCount counterAfterThreeClicks 250).1 = 3 ∧
    (getCount counterAfterThreeClicks 1050).1 = 2 ∧
    ∀ (t w : ℤ), 2 < w →
      (getCount (handleClick (handleClick (handleClick
          { timeWindow := w, clicks := [], hasCallback := false }
          t 0).1 (t + 1) 1).1 (t + w - 1) 2).1 (t + w + 1)).1 = 1 := by
  refine ⟨by decide, by decide, ?_⟩
  intro t w hw
  simp only [handleClick, getCount, List.filter_nil, List.nil_append,
    List.filter_cons, List.filter_append, decide_eq_true_eq]
  split_ifs <;> simp_all <;> omega

/-- **C1** (witness for the amended theorem): at `t = 0`, `w = 1000` the
general scenario read returns 1. -/
theorem counter_reads_amended_witness :
    (2 : ℤ) < 1000 ∧
    (getCount (handleClick (handleClick (handleClick
        { timeWindow := 1000, clicks := [], hasCallback := false }
        0 0).1 (0 + 1) 1).1 (0 + 1000 - 1) 2).1 (0 + 1000 + 1)).1 = 1 :=
  ⟨by decide, counter_reads_amended.2.2 0 1000 (by decide)⟩

end MouseListener

namespace MouseListener

/-- **C2**: for every prior log and strictly positive window, recording a
click at time `now` leaves the log equal to the old log with the entries
satisfying `now - timestamp >= window` removed and `now` appended; when an
observer is registered the handler invokes it exactly once, with the
resulting log length and the originating event; and `getCount` performs no
observer invocation at all. -/
theorem clickCounter_record_spec (s : ClickCounterState) (now : ℤ) (ev : ℕ)
    (_hw : 0 < s.timeWindow) :
    (handleClick s now ev).1.clicks
      = s.clicks.filter (fun time => ¬ (s.timeWindow ≤ now - time)) ++ [now] ∧
    (handleClick s now ev).1.timeWindow = s.timeWindow ∧
    (handleClick s now ev).1.hasCallback = s.hasCallback ∧
    (handleClick s now ev).2
      = (if s.hasCallback then [((handleClick s now ev).1.clicks.length, ev)] else []) ∧
    (getCount s now).2.2 = [] := by
  refine ⟨?_, rfl, rfl, rfl, rfl⟩
  simp only [handleClick]
  congr 1
  apply List.filter_congr
  intro t _
  simp [not_le]

/-- **C2** (witness): a counter with window 1000, log `[0, 100, 200]` and a
registered observer, recording a click at time 1050: the click at 0 is
evicted, the new log is `[100, 200, 1050]`, and the observer is invoked
exactly once with `(3, 7)`. -/
theorem clickCounter_record_spec_witness :
    (0 : ℤ) < 1000 ∧
    (handleClick ⟨1000, [0, 100, 200], true⟩ 1050 7).1.clicks
      = [0, 100, 200].filter (fun time => ¬ ((1000 : ℤ) ≤ 1050 - time)) ++ [1050] ∧
    (handleClick ⟨1000, [0, 100, 200], true⟩ 1050 7).2
      = [((handleClick ⟨1000, [0, 100, 200], true⟩ 1050 7).1.clicks.length, 7)] ∧
    (getCount ⟨1000, [0, 100, 200], true⟩ 1050).2.2 = [] := by
  have h := clickCounter_record_spec ⟨1000, [0, 100, 200], true⟩ 1050 7 (by decide)
  refine ⟨by decide, h.1, ?_, h.2.2.2.2⟩
  rw [h.2.2.2.1]
  decide

/-- **C3**: after any `count()` read, every timestamp left in the log is
strictly younger than the window; the read changes no state beyond the
eviction (the resulting state is the old one with the log filtered); and
the read is idempotent — reading again at the same instant returns the
same count and the same state, independent of any new clicks. -/
theorem clickCounter_read_invariant (s : ClickCounterState) (now : ℤ) :
    (∀ t, t ∈ (getCount s now).2.1.clicks → now - t < s.timeWindow) ∧
    (getCount s now).2.1
      = { s with clicks := s.clicks.filter (fun time => now - time < s.timeWindow) } ∧
    (getCount s now).1 = (getCount s now).2.1.clicks.length ∧
    getCount (getCount s now).2.1 now = getCount s now := by
  refine ⟨?_, rfl, rfl, ?_⟩
  · intro t ht
    have h := List.of_mem_filter ht
    simpa using h
  · simp only [getCount]
    rw [List.filter_eq_self.mpr]
    intro t ht
    exact (List.mem_filter.mp ht).2

/-- **C3** (witness): reading the three-click counter at 1050 evicts the
click at 0, leaves `[100, 200]`, and a second read at 1050 is a no-op. -/
theorem clickCounter_read_invariant_witness :
    (getCount counterAfterThreeClicks 1050).2.1
      = { counterAfterThreeClicks with
          clicks := counterAfterThreeClicks.clicks.filter
            (fun time => (1050 : ℤ) - time < counterAfterThreeClicks.timeWindow) } ∧
    getCount ((getCount counterAfterThreeClicks 1050).2.1) 1050
      = getCount counterAfterThreeClicks 1050 :=
  ⟨(clickCounter_read_invariant counterAfterThreeClicks 1050).2.1,
   (clickCounter_read_invariant counterAfterThreeClicks 1050).2.2.2⟩

/-- **C10**: constructing a ClickCounter with `timeWindow: 0` — or with the
option absent — yields the 2000 ms default: the falsy value is silently
replaced, so the resulting state (hence the behaviour of both `record` and
`count()`, which read only the state) is identical to one constructed with
`timeWindow: 2000`. -/
theorem clickCounter_zero_window_defaults (w : Option ℤ) (hc : Bool)
    (h : w = some 0 ∨ w = none) :
    (clickCounterInit w hc).timeWindow = 2000 ∧
    clickCounterInit w hc = clickCounterInit (some 2000) hc := by
  rcases h with h | h <;> subst h <;> exact ⟨rfl, rfl⟩

/-- **C10** (witness): at `timeWindow = some 0` the window is 2000. -/
theorem clickCounter_zero_window_defaults_witness :
    ((some (0 : ℤ)) = some 0 ∨ (some (0 : ℤ)) = none) ∧
    (clickCounterInit (some 0) true).timeWindow = 2000 ∧
    clickCounterInit (some 0) true = clickCounterInit (some 2000) true :=
  ⟨Or.inl rfl, clickCounter_zero_window_defaults (some 0) true (Or.inl rfl)⟩

end MouseListener

namespace MouseListener

/-- The drag tracker, with all three callbacks supplied, after a mousedown
at (0, 0): a drag session is in progress. -/
def draggingState : DragState :=
  (handleMouseDown (dragInit ⟨true, true, true⟩) ⟨0, 0, 0⟩).1

/-- **C4** (counterexample).  Calling `stop()` mid-drag does not return the
tracker to the Idle / no-session state: `stop` removes the listeners but
never clears `isDragging`, so after a mousedown at (0, 0) followed by
`stop()` the state still has `isDragging = true`.  (It does fire no
callback, as the claim also says.) -/
theorem dragStop_mid_drag_counterexample :
    draggingState.isDragging = true ∧
    (dragStop draggingState).1.isDragging = true ∧
    (dragStop draggingState).2 = [] := by
  decide

/-- **C4** (amended).  `stop()` at any point detaches all three listeners
the tracker owns and invokes no callback (in particular never onEnd), but
it leaves the `isDragging` flag and the session positions unchanged rather
than resetting them to the Idle state; since the listeners are detached,
no further events reach the tracker. -/
theorem dragStop_spec (s : DragState) :
    (dragStop s).1.elementMousedownAttached = false ∧
    (dragStop s).1.docMousemoveAttached = false ∧
    (dragStop s).1.docMouseupAttached = false ∧
    (dragStop s).2 = [] ∧
    (dragStop s).1.isDragging = s.isDragging ∧
    (dragStop s).1.startPos = s.startPos ∧
    (dragStop s).1.currentPos = s.currentPos ∧
    (dragStop s).1.callbacks = s.callbacks := by
  exact ⟨rfl, rfl, rfl, rfl, rfl, rfl, rfl, rfl⟩

/-- **C5**: move and release events while no drag session is active change
nothing and invoke no callback; and the concrete sequence press (5,5),
move (15,5), release fires onStart exactly once with (5,5), onDrag exactly
once with current (15,5) and delta (10,0), onEnd exactly once with the
same delta, after which a further move event is a no-op. -/
theorem drag_scenario_spec :
    (∀ (s : DragState) (e : MouseEvent), s.isDragging = false →
       handleMouseMove s e = (s, []) ∧ handleMouseUp s e = (s, [])) ∧
    (handleMouseDown (dragInit ⟨true, true, true⟩) ⟨5, 5, 0⟩).2
      = [.onStart (5, 5)] ∧
    (handleMouseMove
      (handleMouseDown (dragInit ⟨true, true, true⟩) ⟨5, 5, 0⟩).1 ⟨15, 5, 0⟩).2
      = [.onDrag (15, 5) (10, 0)] ∧
    (handleMouseUp
      (handleMouseMove
        (handleMouseDown (dragInit ⟨true, true, true⟩) ⟨5, 5, 0⟩).1
        ⟨15, 5, 0⟩).1 ⟨15, 5, 0⟩).2
      = [.onEnd (15, 5) (10, 0)] ∧
    handleMouseMove
      (handleMouseUp
        (handleMouseMove
          (handleMouseDown (dragInit ⟨true, true, true⟩) ⟨5, 5, 0⟩).1
          ⟨15, 5, 0⟩).1 ⟨15, 5, 0⟩).1 ⟨20, 20, 0⟩
      = ((handleMouseUp
            (handleMouseMove
              (handleMouseDown (dragInit ⟨true, true, true⟩) ⟨5, 5, 0⟩).1
              ⟨15, 5, 0⟩).1 ⟨15, 5, 0⟩).1, []) := by
  refine ⟨?_, by decide,
    by norm_num [handleMouseDown, handleMouseMove, dragInit],
    by norm_num [handleMouseDown, handleMouseMove, handleMouseUp, dragInit],
    by decide⟩
  intro s e h
  rw [handleMouseMove, handleMouseUp, h]
  exact ⟨rfl, rfl⟩

/-- **C5** (witness): a freshly constructed (Idle) tracker ignores a move
and a release at (3, 4). -/
theorem drag_scenario_spec_witness :
    (dragInit ⟨true, true, true⟩).isDragging = false ∧
    handleMouseMove (dragInit ⟨true, true, true⟩) ⟨3, 4, 0⟩
      = (dragInit ⟨true, true, true⟩, []) ∧
    handleMouseUp (dragInit ⟨true, true, true⟩) ⟨3, 4, 0⟩
      = (dragInit ⟨true, true, true⟩, []) :=
  ⟨rfl, drag_scenario_spec.1 (dragInit ⟨true, true, true⟩) ⟨3, 4, 0⟩ rfl⟩

/-- **C8**: a press or release with button index 0, 1 or 2 sets or clears
exactly the corresponding named flag (0→left, 1→middle, 2→right), leaving
the other two unchanged; any other index leaves the whole state unchanged;
and pressing then releasing index 2 makes `isPressed "right"` true then
false while `isPressed "middle"` stays false throughout. -/
theorem mouseButtons_spec :
    (∀ (s : ButtonState) (e : MouseEvent),
      (e.button = 0 →
        buttonsDown s e = { s with left := true } ∧
        buttonsUp s e = { s with left := false }) ∧
      (e.button = 1 →
        buttonsDown s e = { s with middle := true } ∧
        buttonsUp s e = { s with middle := false }) ∧
      (e.button = 2 →
        buttonsDown s e = { s with right := true } ∧
        buttonsUp s e = { s with right := false }) ∧
      (e.button ≠ 0 → e.button ≠ 1 → e.button ≠ 2 →
        buttonsDown s e = s ∧ buttonsUp s e = s)) ∧
    isPressed mouseButtonsInit "middle" = false ∧
    isPressed (buttonsDown mouseButtonsInit ⟨0, 0, 2⟩) "right" = true ∧
    isPressed (buttonsDown mouseButtonsInit ⟨0, 0, 2⟩) "middle" = false ∧
    isPressed (buttonsUp (buttonsDown mouseButtonsInit ⟨0, 0, 2⟩) ⟨0, 0, 2⟩)
      "right" = false ∧
    isPressed (buttonsUp (buttonsDown mouseButtonsInit ⟨0, 0, 2⟩) ⟨0, 0, 2⟩)
      "middle" = false := by
  refine ⟨?_, by decide, by decide, by decide, by decide, by decide⟩
  intro s e
  refine ⟨fun h0 => ?_, fun h1 => ?_, fun h2 => ?_, fun h0 h1 h2 => ?_⟩
  · rw [buttonsDown, buttonsUp, if_pos h0, if_pos h0]; exact ⟨rfl, rfl⟩
  · rw [buttonsDown, buttonsUp, if_neg (by omega), if_pos h1,
      if_neg (by omega), if_pos h1]
    exact ⟨rfl, rfl⟩
  · rw [buttonsDown, buttonsUp, if_neg (by omega), if_neg (by omega),
      if_pos h2, if_neg (by omega), if_neg (by omega), if_pos h2]
    exact ⟨rfl, rfl⟩
  · rw [buttonsDown, buttonsUp, if_neg h0, if_neg h1, if_neg h2,
      if_neg h0, if_neg h1, if_neg h2]
    exact ⟨rfl, rfl⟩

/-- **C8** (witness): at button index 5 neither press nor release changes
the state of a tracker with only `left` held. -/
theorem mouseButtons_spec_witness :
    buttonsDown ⟨true, false, false⟩ ⟨0, 0, 5⟩ = ⟨true, false, false⟩ ∧
    buttonsUp ⟨true, false, false⟩ ⟨0, 0, 5⟩ = ⟨true, false, false⟩ :=
  ((mouseButtons_spec.1 ⟨true, false, false⟩ ⟨0, 0, 5⟩).2.2.2
    (by decide) (by decide) (by decide))

end MouseListener

namespace MouseListener

/-- **C6**: when two consecutive move events carry the same clock reading
(`deltaTime = 0`), the second event emits nothing and leaves the stored
velocity untouched, but still updates `lastPos` to the second event's
coordinates and `lastTime` to the (unchanged) clock reading before
returning. -/
theorem tracker_same_timestamp_spec (s : TrackerState) (e1 e2 : MouseEvent)
    (ct : ℤ) :
    (trackerHandleMove (trackerHandleMove s e1 ct).1 e2 ct).2 = none ∧
    (trackerHandleMove (trackerHandleMove s e1 ct).1 e2 ct).1.velocity
      = (trackerHandleMove s e1 ct).1.velocity ∧
    (trackerHandleMove (trackerHandleMove s e1 ct).1 e2 ct).1.lastPos
      = (e2.clientX, e2.clientY) ∧
    (trackerHandleMove (trackerHandleMove s e1 ct).1 e2 ct).1.lastTime = ct := by
  have hlt : (trackerHandleMove s e1 ct).1.lastTime = ct := by
    rw [trackerHandleMove]
    split <;> rfl
  revert hlt
  generalize (trackerHandleMove s e1 ct).1 = s1
  intro hlt
  simp [trackerHandleMove, hlt, sub_self]

/-- **C7** (counterexample).  After the move from (0,0) to (10,0) over 100
time units, the tracker's stored last position is (10,0), so the
subsequent move to (0,10) over the next 100 units has
`deltaX = −10, deltaY = 10` and its emitted angle is
`atan2(10, −10)·180/π = 135°`, not 90°. -/
theorem tracker_angle_counterexample :
    (trackerHandleMove (trackerHandleMove (trackerInit 0) ⟨10, 0, 0⟩ 100).1
        ⟨0, 10, 0⟩ 200).2
      = some { velocity := (-1/10, 1/10), deltaX := -10, deltaY := 10,
               position := (0, 10) } ∧
    emissionAngleDeg
        { velocity := (-1/10, 1/10), deltaX := -10, deltaY := 10,
          position := (0, 10) }
      = 135 ∧
    (135 : ℝ) ≠ 90 := by
  refine ⟨by norm_num [trackerHandleMove, trackerInit], ?_, by norm_num⟩
  unfold emissionAngleDeg atan2
  norm_num
  have hπ : Real.pi ≠ 0 := Real.pi_ne_zero
  field_simp
  ring

/-- **C7** (amended).  For every move event with strictly positive
`deltaTime` the tracker emits the payload whose velocity is
`deltaPosition / deltaTime` component-wise, whose speed is the Euclidean
norm of the velocity and whose angle is `atan2(deltaY, deltaX)` in
degrees; concretely, a move from (0,0) to (10,0) over 100 time units
yields velocity (1/10, 0), speed 1/10 and angle 0°, and the subsequent
move to (0,10) over 100 units yields angle 135° (not 90°: its delta is
(−10, 10)). -/
theorem tracker_motion_spec :
    (∀ (s : TrackerState) (e : MouseEvent) (ct : ℤ), s.lastTime < ct →
      (trackerHandleMove s e ct).2 = some
        { velocity := ((e.clientX - s.lastPos.1) / ((ct - s.lastTime : ℤ) : ℚ),
                       (e.clientY - s.lastPos.2) / ((ct - s.lastTime : ℤ) : ℚ))
          deltaX := e.clientX - s.lastPos.1
          deltaY := e.clientY - s.lastPos.2
          position := (e.clientX, e.clientY) } ∧
      ∀ (em : MoveEmission),
        emissionSpeed em
          = Real.sqrt ((em.velocity.1 : ℝ) ^ 2 + (em.velocity.2 : ℝ) ^ 2) ∧
        emissionAngleDeg em
          = atan2 (em.deltaY : ℝ) (em.deltaX : ℝ) * (180 / Real.pi)) ∧
    (trackerHandleMove (trackerInit 0) ⟨10, 0, 0⟩ 100).2
      = some { velocity := (1/10, 0), deltaX := 10, deltaY := 0,
               position := (10, 0) } ∧
    emissionSpeed { velocity := (1/10, 0), deltaX := 10, deltaY := 0,
                    position := (10, 0) } = 1/10 ∧
    emissionAngleDeg { velocity := (1/10, 0), deltaX := 10, deltaY := 0,
                       position := (10, 0) } = 0 ∧
    (trackerHandleMove (trackerHandleMove (trackerInit 0) ⟨10, 0, 0⟩ 100).1
        ⟨0, 10, 0⟩ 200).2
      = some { velocity := (-1/10, 1/10), deltaX := -10, deltaY := 10,
               position := (0, 10) } ∧
    emissionAngleDeg
        { velocity := (-1/10, 1/10), deltaX := -10, deltaY := 10,
          position := (0, 10) }
      = 135 := by
  refine ⟨?_, by norm_num [trackerHandleMove, trackerInit], ?_, ?_,
    by norm_num [trackerHandleMove, trackerInit], ?_⟩
  · intro s e ct h
    have hpos : (0 : ℤ) < ct - s.lastTime := by omega
    refine ⟨?_, fun em => ⟨rfl, rfl⟩⟩
    simp only [trackerHandleMove]
    rw [if_pos hpos]
  · rw [emissionSpeed]
    norm_num
    rw [show ((100 : ℝ)) = 10 ^ 2 by norm_num, Real.sqrt_sq (by norm_num : (0:ℝ) ≤ 10)]
    norm_num
  · unfold emissionAngleDeg atan2
    norm_num [Real.arctan_zero]
  · unfold emissionAngleDeg atan2
    norm_num
    have hπ : Real.pi ≠ 0 := Real.pi_ne_zero
    field_simp
    ring

/-- **C7** (witness): the universally quantified emission formula at the
concrete first move — from the initial state, the event at (10, 0) with
clock 100 emits velocity (1/10, 0). -/
theorem tracker_motion_spec_witness :
    (trackerInit 0).lastTime < 100 ∧
    (trackerHandleMove (trackerInit 0) ⟨10, 0, 0⟩ 100).2
      = some { velocity := (1/10, 0), deltaX := 10, deltaY := 0,
               position := (10, 0) } := by
  refine ⟨by decide, ?_⟩
  rw [(tracker_motion_spec.1 (trackerInit 0) ⟨10, 0, 0⟩ 100 (by decide)).1]
  norm_num [trackerInit]

/-- **C9**: with smoothing disabled, a move event sets the target to the
mouse position plus the configured offset, snaps the current position to
it, and fires the visual update synchronously; with smoothing enabled,
each animation tick moves each component of the current position 30% of
the remaining distance to the target, fires the visual update, and keeps
the frame loop scheduled. -/
theorem customCursor_spec :
    (∀ (s : CursorState) (e : MouseEvent), s.smooth = false →
      cursorHandleMove s e
        = ({ s with
              targetPos := (e.clientX + s.offset.1, e.clientY + s.offset.2),
              currentPos := (e.clientX + s.offset.1, e.clientY + s.offset.2) },
           true)) ∧
    (∀ (s : CursorState), s.smooth = true →
      cursorUpdate s
        = ({ s with
              currentPos :=
                (s.currentPos.1 + (s.targetPos.1 - s.currentPos.1) * (3/10),
                 s.currentPos.2 + (s.targetPos.2 - s.currentPos.2) * (3/10)),
              animationFramePending := true },
           true)) := by
  constructor
  · intro s e h
    simp [cursorHandleMove, h]
  · intro s h
    simp [cursorUpdate, h]

/-- **C9** (witness): with smoothing off and offset (1, 2), a move to
(10, 20) snaps current and target to (11, 22) and fires the update; with
smoothing on, a tick from current (0, 0) toward target (10, 20) moves to
(3, 6) and fires the update. -/
theorem customCursor_spec_witness :
    cursorHandleMove (cursorInit false (1, 2)) ⟨10, 20, 0⟩
      = ({ cursorInit false (1, 2) with
            targetPos := (11, 22), currentPos := (11, 22) }, true) ∧
    cursorUpdate { smooth := true, offset := (0, 0), currentPos := (0, 0),
                   targetPos := (10, 20), animationFramePending := true }
      = ({ smooth := true, offset := (0, 0), currentPos := (3, 6),
           targetPos := (10, 20), animationFramePending := true }, true) := by
  constructor
  · rw [customCursor_spec.1 (cursorInit false (1, 2)) ⟨10, 20, 0⟩ rfl]
    norm_num [cursorInit]
  · rw [customCursor_spec.2 _ rfl]
    norm_num

end MouseListener
